import Mathlib

/-
Verification of the lazy-submission object model
(praw/models/reddit/submission.py).

The embedding below translates the source file into Lean:
Python attribute dictionaries become insertion-ordered association
lists, Python exceptions become an error type returned through
`Except`/`Option`, and the external transport collaborator is passed in
explicitly as a stubbed reply value.  Collaborator pieces that live
outside the analysed source file (the base class's attribute-read
hook, the comment forest's update, endpoint path constants, the
fullname property) are modelled from the specification and are marked
as such in their doc comments.
-/

namespace Praw

/-- Values storable in an entity's attribute dictionary.  `vRedditor`
and `vSubreddit` are the typed references produced by the attribute
interceptor (`Submission.__setattr__`); `vForest` is a comment-tree
object carrying an identity tag (modelling Python object identity) and
its node ids; `vFlair`/`vMod` stand for the companion controller
objects attached at construction. -/
inductive Value where
  | vStr (s : String)
  | vNat (n : Nat)
  | vBool (b : Bool)
  | vRedditor (raw : Value)
  | vSubreddit (raw : Value)
  | vForest (tag : Nat) (nodes : List Nat)
  | vFlair
  | vMod
deriving DecidableEq, Repr

/-- Errors raised by the translated code: `typeError` is the
construction-arity `TypeError`, `clientException` is praw's
`ClientException` carrying its message, and `indexError` is a Python
`IndexError` from list indexing past the end. -/
inductive PErr where
  | typeError
  | clientException (msg : String)
  | indexError
deriving DecidableEq, Repr

/-- Lookup in an insertion-ordered attribute dictionary (first match,
as in a Python dict, whose keys are unique). -/
def lookupA : List (String × Value) → String → Option Value
  | [], _ => none
  | (k, v) :: rest, name => if k = name then some v else lookupA rest name

/-- Write one key into an insertion-ordered dictionary: replace the
binding in place when the key is present, append otherwise — exactly
the update discipline of a Python dict. -/
def upsert : List (String × Value) → String → Value → List (String × Value)
  | [], name, v => [(name, v)]
  | (k, w) :: rest, name, v =>
      if k = name then (name, v) :: rest else (k, w) :: upsert rest name v

/-- Bulk dictionary update, modelling Python's `dict.update` /
`self.__dict__.update(other.__dict__)`: every binding of `upd` is
written into `d` in order. -/
def dictUpdate (d upd : List (String × Value)) : List (String × Value) :=
  upd.foldl (fun acc kv => upsert acc kv.1 kv.2) d

/- ----------------------------------------------------------------
URL parsing (six.moves.urllib.parse.urlparse), translated from
CPython's `urllib.parse.urlsplit`/`urlparse` restricted to what the
identifier resolver consumes: scheme recognition, authority (netloc)
extraction, fragment/query stripping and params splitting.
---------------------------------------------------------------- -/

/-- Characters allowed after the first character of a URL scheme. -/
def schemeCharOk (c : Char) : Bool :=
  c.isAlpha || c.isDigit || c = '+' || c = '-' || c = '.'

/-- Split a character list at the first occurrence of `c`, returning
the parts before and after it (none when `c` is absent). -/
def breakAtFirst (c : Char) : List Char → Option (List Char × List Char)
  | [] => none
  | x :: xs =>
    if x = c then some ([], xs)
    else
      match breakAtFirst c xs with
      | some (l, r) => some (x :: l, r)
      | none => none

/-- Scheme extraction of `urlsplit`: the text before the first colon is
the scheme when it is nonempty, starts with a letter and continues with
scheme characters; it is lower-cased, otherwise nothing is split off. -/
def splitScheme (url : List Char) : String × List Char :=
  match breakAtFirst ':' url with
  | some (before, after) =>
    match before with
    | [] => ("", url)
    | c0 :: restc =>
      if c0.isAlpha && restc.all schemeCharOk then
        (String.mk ((c0 :: restc).map Char.toLower), after)
      else ("", url)
  | none => ("", url)

/-- Delimiters terminating the authority component. -/
def isNetlocDelim (c : Char) : Bool := c = '/' || c = '?' || c = '#'

/-- Authority extraction of `urlsplit`: when the remainder starts with
`//`, the netloc is everything up to the next `/`, `?` or `#`. -/
def splitNetloc (rest : List Char) : String × List Char :=
  match rest with
  | '/' :: '/' :: tail =>
      (String.mk (tail.takeWhile (fun c => !(isNetlocDelim c))),
       tail.dropWhile (fun c => !(isNetlocDelim c)))
  | _ => ("", rest)

/-- Fragment stripping of `urlsplit`: split at the first `#`. -/
def splitFragment (u : List Char) : List Char × String :=
  match breakAtFirst '#' u with
  | some (before, after) => (before, String.mk after)
  | none => (u, "")

/-- Query stripping of `urlsplit`: split at the first `?`. -/
def splitQuery (u : List Char) : List Char × String :=
  match breakAtFirst '?' u with
  | some (before, after) => (before, String.mk after)
  | none => (u, "")

/-- Split off the suffix after the last `/`, keeping the slash with the
first component (CPython's `url.rfind` step inside `_splitparams`). -/
def lastSlashSplit (l : List Char) : Option (List Char × List Char) :=
  match breakAtFirst '/' l.reverse with
  | some (afterRev, beforeRev) => some (beforeRev.reverse ++ ['/'], afterRev.reverse)
  | none => none

/-- CPython's `_splitparams`: split the path at the first `;` occurring
at or after the last `/` (or anywhere when there is no `/`). -/
def splitParams (u : List Char) : List Char × String :=
  match lastSlashSplit u with
  | some (pre, suf) =>
    match breakAtFirst ';' suf with
    | some (a, b) => (pre ++ a, String.mk b)
    | none => (u, "")
  | none =>
    match breakAtFirst ';' u with
    | some (a, b) => (a, String.mk b)
    | none => (u, "")

/-- Schemes for which `urlparse` splits params (CPython
`uses_params`). -/
def usesParams : List String :=
  ["", "ftp", "hdl", "prospero", "http", "imap", "https", "shttp",
   "rtsp", "rtspu", "sip", "sips", "mms", "sftp", "tel"]

/-- Result of `urlparse`. -/
structure UrlParts where
  scheme : String
  netloc : String
  path : String
  params : String
  query : String
  fragment : String
deriving DecidableEq, Repr

/-- Translation of `urllib.parse.urlparse` (scheme, netloc, path,
params, query, fragment); only `netloc` and `path` are consumed by the
identifier resolver. -/
def urlparse (url : String) : UrlParts :=
  let (scheme, rest1) := splitScheme url.toList
  let (netloc, rest2) := splitNetloc rest1
  let (rest3, fragment) := splitFragment rest2
  let (rest4, query) := splitQuery rest3
  if usesParams.contains scheme && rest4.contains ';' then
    let (p, params) := splitParams rest4
    ⟨scheme, netloc, String.mk p, params, query, fragment⟩
  else
    ⟨scheme, netloc, String.mk rest4, "", query, fragment⟩

/-- Python's `str.split('/')`: split at every slash, keeping empty
segments (at least one segment is always produced). -/
def splitOnSlash : List Char → List (List Char)
  | [] => [[]]
  | c :: cs =>
    let r := splitOnSlash cs
    if c = '/' then [] :: r
    else
      match r with
      | h :: t => (c :: h) :: t
      | [] => [[c]]

/-- Path segments of a URL: `urlparse(url).path.split('/')`. -/
def pathParts (url : String) : List String :=
  (splitOnSlash (urlparse url).path.toList).map String.mk

/-- Python's `str.isalnum()` (restricted to ASCII alphanumerics, which
covers every reddit identifier): true iff the string is nonempty and
every character is alphanumeric. -/
def pyIsAlnum (s : String) : Bool :=
  s.length != 0 && s.toList.all Char.isAlphanum

/-- Candidate identifier token derived from the URL's path segments in
`Submission.id_from_url`: the segment right after the first `comments`
segment when the marker is present (`none` when that index is past the
end of the list, where Python raises `IndexError`), the last segment
otherwise. -/
def candidate (url : String) : Option String :=
  let parts := pathParts url
  if "comments" ∈ parts then
    parts.get? (parts.findIdx (fun p => p == "comments") + 1)
  else
    parts.getLast?

/-- Translation of `Submission.id_from_url`: reject URLs without an
authority component, derive the candidate token from the path segments
and reject it when it is not purely alphanumeric; the
`ClientException` echoes the offending URL. -/
def id_from_url (url : String) : Except PErr String :=
  let parsed := urlparse url
  if parsed.netloc = "" then
    .error (.clientException ("Invalid URL: " ++ url))
  else
    match candidate url with
    | none => .error .indexError
    | some submission_id =>
      if pyIsAlnum submission_id then .ok submission_id
      else .error (.clientException ("Invalid URL: " ++ url))

deriving instance DecidableEq for Except

/- ----------------------------------------------------------------
The lazy entity (`Submission`), its attribute interceptor and the
fetch orchestrator.
---------------------------------------------------------------- -/

/-- State of a lazy entity: its attribute dictionary (`__dict__`,
restricted to ordinary attributes) and the fetched flag
(`self._fetched`, kept as a separate field).  The `_reddit` back
reference is not modelled; the transport collaborator is passed to the
functions that use it. -/
structure Entity where
  attrs : List (String × Value)
  fetched : Bool
deriving DecidableEq, Repr

/-- Attribute interceptor of `Submission.__setattr__`: the `author`
value is wrapped into a typed author reference (`Redditor.from_data`)
and the `subreddit` value into a typed container reference
(`Subreddit(...)`); every other name passes through unchanged.  The
wrapped constructors model the typed handles built by the collaborator
classes (redditor.py / subreddit.py, outside the analysed file). -/
def objectify (name : String) (v : Value) : Value :=
  if name = "author" then .vRedditor v
  else if name = "subreddit" then .vSubreddit v
  else v

/-- Direct attribute write path (`setattr` on a `Submission`): the
value is routed through the interceptor before being stored. -/
def setAttr (e : Entity) (name : String) (v : Value) : Entity :=
  { e with attrs := upsert e.attrs name (objectify name v) }

/-- Companion controllers attached at the end of `__init__`
(`self.flair = SubmissionFlair(self)`, `self.mod =
SubmissionModeration(self)`); modelled as marker values since the
companions hold only a non-owning back reference to the parent. -/
def withCompanions (e : Entity) : Entity :=
  setAttr (setAttr e "flair" .vFlair) "mod" .vMod

/-- Translation of `Submission.__init__`.  The arity guard is Python's
`[id, url, _data].count(None) != 2`, raising `TypeError`.  The base
initializer (`RedditBase.__init__`, outside the analysed file, so its
attribute loop is modelled from the spec's construction contract)
stores the raw-data fields through the write path; then the defaults
`comment_limit = 2048` and `comment_sort = 'best'` are stored, then
the identifier (taken verbatim or resolved from the URL, whose
resolution error propagates), then the companions. -/
def Submission.init (idO urlO : Option String)
    (dataO : Option (List (String × Value))) : Except PErr Entity :=
  if [idO.isNone, urlO.isNone, dataO.isNone].count true ≠ 2 then
    .error .typeError
  else
    let e0 : Entity := ⟨[], false⟩
    let e1 := (dataO.getD []).foldl (fun acc kv => setAttr acc kv.1 kv.2) e0
    let e2 := setAttr (setAttr e1 "comment_limit" (.vNat 2048))
      "comment_sort" (.vStr "best")
    match idO, urlO with
    | some i, _ => .ok (withCompanions (setAttr e2 "id" (.vStr i)))
    | none, some u =>
      match id_from_url u with
      | .ok s => .ok (withCompanions (setAttr e2 "id" (.vStr s)))
      | .error err => .error err
    | none, none => .ok (withCompanions e2)

/-- Python `str()` on the modelled values.  For the typed references
this is modelled from the spec: the display form of an author or
container reference is the display form of the key it wraps. -/
def pyStr : Value → String
  | .vStr s => s
  | .vNat n => toString n
  | .vBool b => if b then "True" else "False"
  | .vRedditor raw => pyStr raw
  | .vSubreddit raw => pyStr raw
  | .vForest _ _ => "CommentForest"
  | .vFlair => "SubmissionFlair"
  | .vMod => "SubmissionModeration"

/-- Display form of an optional attribute value (the `none` case is
unreachable on entities that carry the attribute; theorems below
always hypothesise presence). -/
def pyStrOpt (o : Option Value) : String := (o.map pyStr).getD ""

/-- Modelled from the spec: `RedditBase.fullname` (base.py, not under
the analysed sources) — a stable identity composed of the submission
type prefix and the entity identifier. -/
def fullnameStr (o : Option Value) : String := "t3_" ++ pyStrOpt o

/-- Modelled from the spec: `API_PATH['submission']` (praw/const.py,
not under the analysed sources); `Submission._info_path` formats the
entity identifier into it.  The concrete string is opaque to every
property below. -/
def infoPath (e : Entity) : String :=
  "comments/" ++ pyStrOpt (lookupA e.attrs "id") ++ "/"

/-- A read request as handed to the transport collaborator
(`Transport.get(path, params)`).  Parameter values are the attribute
lookups performed at call time (present on every constructed
entity). -/
structure GetRequest where
  path : String
  params : List (String × Option Value)
deriving DecidableEq, Repr

/-- A write request as handed to the transport collaborator
(`Transport.post(path, data)`). -/
structure Request where
  path : String
  data : List (String × Value)
deriving DecidableEq, Repr

/-- The read request issued by `Submission._fetch`:
`self._reddit.get(self._info_path(), params={'limit':
self.comment_limit, 'sort': self.comment_sort})` — both parameters are
read from the entity's own attributes at the moment of the call. -/
def fetchRequest (e : Entity) : GetRequest :=
  ⟨infoPath e,
   [("limit", lookupA e.attrs "comment_limit"),
    ("sort", lookupA e.attrs "comment_sort")]⟩

/-- The transport collaborator's two-part reply to the fetch request:
the primary listing's children (each a dictionary — the `__dict__` of
one objectified record, produced entirely by the out-of-scope
deserialization layer) and the secondary comment listing's child node
ids. -/
structure Reply where
  children : List (List (String × Value))
  commentChildren : List Nat
deriving DecidableEq, Repr

/-- Modelled from the spec: `CommentForest._update`
(comment_forest.py, not under the analysed sources) — additive,
non-destructive integration of newly fetched nodes into the existing
tree, keyed by node id; the tree object (its identity tag) is kept. -/
def forestUpdate : Value → List Nat → Value
  | .vForest tag nodes, newNodes =>
      .vForest tag (nodes ++ newNodes.filter (fun n => !(nodes.contains n)))
  | v, _ => v

/-- Translation of `Submission._fetch`, given the transport's reply
and a fresh identity tag for the `CommentForest(self)` it constructs.
Steps, in source order: take `other.children[0]` (`none` models the
`IndexError` on an empty listing); overwrite its `comments` binding
with a brand-new empty forest (`other.comments = CommentForest(self)`);
bulk-merge the record into the entity's dictionary
(`self.__dict__.update(other.__dict__)` — note: a plain dict update,
not the `setattr` path); update the freshly installed forest with the
secondary children (`self.comments._update(comments.children)`); set
the fetched flag. -/
def fetchF (e : Entity) (r : Reply) (freshTag : Nat) : Option Entity :=
  match r.children with
  | [] => none
  | rec0 :: _ =>
    let other := upsert rec0 "comments" (.vForest freshTag [])
    let merged := dictUpdate e.attrs other
    let merged2 :=
      match lookupA merged "comments" with
      | some f => upsert merged "comments" (forestUpdate f r.commentChildren)
      | none => merged
    some ⟨merged2, true⟩

/-- Modelled from the spec: the attribute read contract
(`RedditBase.__getattr__`, base.py, not under the analysed sources) —
return the attribute when present; when absent on an unfetched entity,
trigger the fetch synchronously and retry the read once; when absent
on a fetched entity, fail (modelled as `none`) without refetching.
The result is the value read, the possibly-updated entity state and
whether a fetch was triggered. -/
def getattrF (e : Entity) (r : Reply) (tag : Nat) (name : String) :
    Option Value × Entity × Bool :=
  match lookupA e.attrs name with
  | some v => (some v, e, false)
  | none =>
    if e.fetched then (none, e, false)
    else
      match fetchF e r tag with
      | some e2 => (lookupA e2.attrs name, e2, true)
      | none => (none, e, true)

/- ----------------------------------------------------------------
Companion controllers (`SubmissionFlair`, `SubmissionModeration`).
Endpoint path strings are modelled from the spec (praw/const.py is not
under the analysed sources) and are opaque to every property below.
Each call returns the write request it issues, the entity state after
the call and whether a fetch of the parent was triggered.
---------------------------------------------------------------- -/

/-- Translation of `SubmissionFlair.choices`: the URL interpolates
`str(self.submission.subreddit)` — an attribute read on the parent —
and the data is keyed by the parent's fullname (an attribute read of
the identifier). -/
def choicesCall (e : Entity) (r : Reply) (tag : Nat) :
    Request × Entity × Bool :=
  let g1 := getattrF e r tag "subreddit"
  let url := "r/" ++ pyStrOpt g1.1 ++ "/api/flairselector"
  let g2 := getattrF g1.2.1 r tag "id"
  (⟨url, [("link", .vStr (fullnameStr g2.1))]⟩, g2.2.1, g1.2.2 || g2.2.2)

/-- Translation of `SubmissionModeration.contest_mode`. -/
def contestModeCall (e : Entity) (r : Reply) (tag : Nat) (state : Bool) :
    Request × Entity × Bool :=
  let g := getattrF e r tag "id"
  (⟨"api/set_contest_mode",
    [("id", .vStr (fullnameStr g.1)), ("state", .vBool state)]⟩, g.2.1, g.2.2)

/-- Translation of `SubmissionModeration.nsfw`. -/
def nsfwCall (e : Entity) (r : Reply) (tag : Nat) :
    Request × Entity × Bool :=
  let g := getattrF e r tag "id"
  (⟨"api/marknsfw", [("id", .vStr (fullnameStr g.1))]⟩, g.2.1, g.2.2)

/-- Translation of `SubmissionModeration.sfw`. -/
def sfwCall (e : Entity) (r : Reply) (tag : Nat) :
    Request × Entity × Bool :=
  let g := getattrF e r tag "id"
  (⟨"api/unmarknsfw", [("id", .vStr (fullnameStr g.1))]⟩, g.2.1, g.2.2)

/-- Translation of `SubmissionModeration.sticky`: the payload starts
as `{'id': fullname, 'state': state}` and, when `bottom` is false, the
positional marker `num = 1` is written into it. -/
def stickyCall (e : Entity) (r : Reply) (tag : Nat) (state bottom : Bool) :
    Request × Entity × Bool :=
  let g := getattrF e r tag "id"
  let d := [("id", Value.vStr (fullnameStr g.1)), ("state", Value.vBool state)]
  let d2 := if bottom then d else upsert d "num" (.vNat 1)
  (⟨"api/set_subreddit_sticky", d2⟩, g.2.1, g.2.2)

/-- Translation of `SubmissionModeration.suggested_sort` (default
argument `sort='blank'` is applied by callers). -/
def suggestedSortCall (e : Entity) (r : Reply) (tag : Nat) (sort : String) :
    Request × Entity × Bool :=
  let g := getattrF e r tag "id"
  (⟨"api/set_suggested_sort",
    [("id", .vStr (fullnameStr g.1)), ("sort", .vStr sort)]⟩, g.2.1, g.2.2)

/- ----------------------------------------------------------------
Dictionary lemmas.
---------------------------------------------------------------- -/

theorem lookupA_upsert_self (d : List (String × Value)) (k : String) (v : Value) :
    lookupA (upsert d k v) k = some v := by
  induction d with
  | nil => simp [upsert, lookupA]
  | cons hd tl ih =>
    obtain ⟨k', w⟩ := hd
    by_cases h : k' = k
    · simp [upsert, h, lookupA]
    · simp [upsert, h, lookupA, ih]

theorem lookupA_upsert_ne (d : List (String × Value)) (k k' : String) (v : Value)
    (h : k' ≠ k) : lookupA (upsert d k v) k' = lookupA d k' := by
  have h2 : ¬(k = k') := fun hh => h hh.symm
  induction d with
  | nil => simp [upsert, lookupA, h2]
  | cons hd tl ih =>
    obtain ⟨k0, w⟩ := hd
    by_cases h0 : k0 = k
    · subst h0
      simp [upsert, lookupA, h2]
    · simp only [upsert, if_neg h0, lookupA]
      by_cases h1 : k0 = k' <;> simp [h1, ih]

theorem lookupA_eq_none (d : List (String × Value)) (k : String) :
    lookupA d k = none ↔ k ∉ d.map Prod.fst := by
  induction d with
  | nil => simp [lookupA]
  | cons hd tl ih =>
    obtain ⟨k0, w⟩ := hd
    by_cases h : k0 = k
    · subst h; simp [lookupA]
    · have h2 : ¬(k = k0) := fun hh => h hh.symm
      simp only [lookupA, if_neg h, ih, List.map, List.mem_cons, not_or]
      constructor
      · intro hn; exact ⟨h2, hn⟩
      · exact And.right

theorem keys_upsert (d : List (String × Value)) (k : String) (v : Value) :
    (upsert d k v).map Prod.fst =
      if k ∈ d.map Prod.fst then d.map Prod.fst else d.map Prod.fst ++ [k] := by
  induction d with
  | nil => simp [upsert]
  | cons hd tl ih =>
    obtain ⟨k0, w⟩ := hd
    by_cases h : k0 = k
    · subst h; simp [upsert]
    · have h2 : ¬(k = k0) := fun hh => h hh.symm
      simp only [upsert, if_neg h, List.map, ih, List.mem_cons]
      by_cases hm : k ∈ tl.map Prod.fst
      · simp [hm]
      · simp [hm, h2]

theorem nodup_keys_upsert (d : List (String × Value)) (k : String) (v : Value)
    (h : (d.map Prod.fst).Nodup) : ((upsert d k v).map Prod.fst).Nodup := by
  rw [keys_upsert]
  by_cases hm : k ∈ d.map Prod.fst
  · simpa [hm] using h
  · simp only [hm, if_false]
    rw [List.nodup_append]
    exact ⟨h, List.nodup_singleton k, by
      intro a ha hb
      simp only [List.mem_singleton] at hb
      subst hb
      exact hm ha⟩

theorem mem_keys_upsert (d : List (String × Value)) (k k' : String) (v : Value) :
    k' ∈ (upsert d k v).map Prod.fst ↔ k' ∈ d.map Prod.fst ∨ k' = k := by
  rw [keys_upsert]
  by_cases hm : k ∈ d.map Prod.fst
  · simp only [hm, if_true]
    constructor
    · exact Or.inl
    · rintro (h | rfl)
      · exact h
      · exact hm
  · simp [hm]

theorem lookupA_dictUpdate_not_mem (d upd : List (String × Value)) (k : String)
    (h : k ∉ upd.map Prod.fst) :
    lookupA (dictUpdate d upd) k = lookupA d k := by
  induction upd generalizing d with
  | nil => rfl
  | cons hd tl ih =>
    obtain ⟨k0, v0⟩ := hd
    simp only [List.map, List.mem_cons, not_or] at h
    rw [show dictUpdate d ((k0, v0) :: tl) = dictUpdate (upsert d k0 v0) tl from rfl]
    rw [ih _ h.2, lookupA_upsert_ne _ _ _ _ h.1]

theorem lookupA_dictUpdate_some (d upd : List (String × Value)) (k : String) (v : Value)
    (h : lookupA upd k = some v) (hnd : (upd.map Prod.fst).Nodup) :
    lookupA (dictUpdate d upd) k = some v := by
  induction upd generalizing d with
  | nil => simp [lookupA] at h
  | cons hd tl ih =>
    obtain ⟨k0, v0⟩ := hd
    rw [show dictUpdate d ((k0, v0) :: tl) = dictUpdate (upsert d k0 v0) tl from rfl]
    simp only [List.map, List.nodup_cons] at hnd
    by_cases hk : k0 = k
    · subst hk
      have h' : v0 = v := by simpa [lookupA] using h
      rw [lookupA_dictUpdate_not_mem _ _ _ hnd.1, lookupA_upsert_self, h']
    · simp only [lookupA, if_neg hk] at h
      exact ih (upsert d k0 v0) h hnd.2

/-- Unfolding lemma for `fetchF` when the primary listing is
nonempty. -/
theorem fetchF_cons (e : Entity) (r : Reply) (tag : Nat)
    (rec0 : List (String × Value)) (rest : List (List (String × Value)))
    (hc : r.children = rec0 :: rest) :
    fetchF e r tag =
      some ⟨(match lookupA (dictUpdate e.attrs
                (upsert rec0 "comments" (.vForest tag []))) "comments" with
             | some f =>
                 upsert (dictUpdate e.attrs (upsert rec0 "comments" (.vForest tag [])))
                   "comments" (forestUpdate f r.commentChildren)
             | none => dictUpdate e.attrs (upsert rec0 "comments" (.vForest tag []))),
            true⟩ := by
  unfold fetchF
  rw [hc]

/- ----------------------------------------------------------------
Claim theorems.
---------------------------------------------------------------- -/

/-- C1, counterexample: on the fetch-merge path the interceptor is
bypassed.  An unfetched entity is fetched with a reply whose primary
record carries a raw string under `author`; after the merge the stored
`author` is that raw string, not a typed reference — whereas the same
raw value stored by direct assignment is wrapped. -/
theorem c1_counterexample_raw_author_survives_merge :
    fetchF ⟨[("id", Value.vStr "abc")], false⟩
        ⟨[[("author", Value.vStr "spez")]], []⟩ 2 =
      some ⟨[("id", Value.vStr "abc"), ("author", Value.vStr "spez"),
             ("comments", Value.vForest 2 [])], true⟩
  ∧ lookupA [("id", Value.vStr "abc"), ("author", Value.vStr "spez"),
        ("comments", Value.vForest 2 [])] "author" = some (Value.vStr "spez")
  ∧ lookupA (setAttr ⟨[("id", Value.vStr "abc")], false⟩ "author"
        (Value.vStr "spez")).attrs "author" =
      some (Value.vRedditor (Value.vStr "spez"))
  ∧ Value.vStr "spez" ≠ Value.vRedditor (Value.vStr "spez") := by
  decide

/-- C1 (amended): every direct external assignment is routed through
the attribute interceptor before storage, but the fetch merge is a
bulk dictionary update that bypasses the interceptor — each field of
the primary record is stored exactly as the reply carries it, so
`author`/`subreddit` end up typed only when the reply's record already
holds typed values. -/
theorem c1_intercept_on_direct_write_bulk_merge_bypasses :
    (∀ (e : Entity) (name : String) (v : Value),
       lookupA (setAttr e name v).attrs name = some (objectify name v))
  ∧ (∀ (e : Entity) (r : Reply) (tag : Nat) (rec0 : List (String × Value))
       (rest : List (List (String × Value))) (e2 : Entity) (name : String) (v : Value),
       r.children = rec0 :: rest →
       (rec0.map Prod.fst).Nodup →
       fetchF e r tag = some e2 →
       name ≠ "comments" →
       lookupA rec0 name = some v →
       lookupA e2.attrs name = some v) := by
  constructor
  · intro e name v
    simp [setAttr, lookupA_upsert_self]
  · intro e r tag rec0 rest e2 name v hc hnd hf hne hv
    have hother : lookupA (upsert rec0 "comments" (Value.vForest tag [])) name = some v := by
      rw [lookupA_upsert_ne _ _ _ _ hne, hv]
    have hmerged :
        lookupA (dictUpdate e.attrs (upsert rec0 "comments" (Value.vForest tag []))) name =
          some v :=
      lookupA_dictUpdate_some _ _ _ _ hother (nodup_keys_upsert _ _ _ hnd)
    rw [fetchF_cons e r tag rec0 rest hc] at hf
    rcases hm : lookupA (dictUpdate e.attrs
        (upsert rec0 "comments" (Value.vForest tag []))) "comments" with _ | f
    · rw [hm] at hf
      injection hf with hf2
      rw [← hf2]
      exact hmerged
    · rw [hm] at hf
      injection hf with hf2
      rw [← hf2]
      rw [lookupA_upsert_ne _ _ _ _ hne]
      exact hmerged

/-- C1, witness for the amended theorem: a concrete merged field
(`score`) is stored exactly as the reply carried it. -/
theorem c1_intercept_witness :
    Reply.children ⟨[[("score", Value.vNat 10)]], []⟩ = [("score", Value.vNat 10)] :: []
  ∧ lookupA (Entity.attrs ⟨[("id", Value.vStr "w"), ("score", Value.vNat 10),
        ("comments", Value.vForest 0 [])], true⟩) "score" = some (Value.vNat 10) :=
  ⟨rfl,
   c1_intercept_on_direct_write_bulk_merge_bypasses.2
     ⟨[("id", Value.vStr "w")], false⟩ ⟨[[("score", Value.vNat 10)]], []⟩ 0
     [("score", Value.vNat 10)] []
     ⟨[("id", Value.vStr "w"), ("score", Value.vNat 10),
       ("comments", Value.vForest 0 [])], true⟩
     "score" (Value.vNat 10) rfl (by decide) (by decide) (by decide) (by decide)⟩

/-- C2, counterexample: `SubmissionFlair.choices` on an unfetched
entity (freshly constructed from an identifier) reads the parent's
`subreddit` attribute, which is absent before the first fetch, so the
call triggers a fetch of the parent — contradicting the claim that
every companion-controller operation (flair choices included) never
triggers a fetch. -/
theorem c2_counterexample_choices_triggers_fetch :
    Submission.init (some "2gmzqe") none none =
      .ok ⟨[("comment_limit", Value.vNat 2048), ("comment_sort", Value.vStr "best"),
            ("id", Value.vStr "2gmzqe"), ("flair", Value.vFlair),
            ("mod", Value.vMod)], false⟩
  ∧ (choicesCall
      ⟨[("comment_limit", Value.vNat 2048), ("comment_sort", Value.vStr "best"),
        ("id", Value.vStr "2gmzqe"), ("flair", Value.vFlair),
        ("mod", Value.vMod)], false⟩
      ⟨[[("subreddit", Value.vSubreddit (Value.vStr "redditdev"))]], []⟩ 3).2.2 = true := by
  decide

/-- C2 (amended): every moderation operation (contest-mode, nsfw, sfw,
sticky, suggested-sort) on an entity carrying its identifier issues
its write keyed by the parent's fullname, leaves the entity (its
fetched flag included) untouched and triggers no fetch; the flair
`choices` operation, however, reads the parent's `subreddit`
attribute, which on an unfetched entity lacking that attribute
triggers a fetch. -/
theorem c2_moderation_pure_flair_choices_fetches
    (e : Entity) (r : Reply) (tag : Nat) (idv : Value)
    (state bottom : Bool) (srt : String)
    (h : lookupA e.attrs "id" = some idv) :
    contestModeCall e r tag state =
      (⟨"api/set_contest_mode",
        [("id", .vStr ("t3_" ++ pyStr idv)), ("state", .vBool state)]⟩, e, false)
  ∧ nsfwCall e r tag =
      (⟨"api/marknsfw", [("id", .vStr ("t3_" ++ pyStr idv))]⟩, e, false)
  ∧ sfwCall e r tag =
      (⟨"api/unmarknsfw", [("id", .vStr ("t3_" ++ pyStr idv))]⟩, e, false)
  ∧ (stickyCall e r tag state bottom).2.1 = e
  ∧ (stickyCall e r tag state bottom).2.2 = false
  ∧ lookupA (stickyCall e r tag state bottom).1.data "id" =
      some (.vStr ("t3_" ++ pyStr idv))
  ∧ suggestedSortCall e r tag srt =
      (⟨"api/set_suggested_sort",
        [("id", .vStr ("t3_" ++ pyStr idv)), ("sort", .vStr srt)]⟩, e, false)
  ∧ (e.fetched = false → lookupA e.attrs "subreddit" = none →
       (choicesCall e r tag).2.2 = true) := by
  refine ⟨?_, ?_, ?_, ?_, ?_, ?_, ?_, ?_⟩
  · simp [contestModeCall, getattrF, h, fullnameStr, pyStrOpt]
  · simp [nsfwCall, getattrF, h, fullnameStr, pyStrOpt]
  · simp [sfwCall, getattrF, h, fullnameStr, pyStrOpt]
  · cases bottom <;> simp [stickyCall, getattrF, h]
  · cases bottom <;> simp [stickyCall, getattrF, h]
  · cases bottom <;>
      simp [stickyCall, getattrF, h, fullnameStr, pyStrOpt, upsert, lookupA]
  · simp [suggestedSortCall, getattrF, h, fullnameStr, pyStrOpt]
  · intro h2 h3
    rcases hfet : fetchF e r tag with _ | e4 <;>
      simp [choicesCall, getattrF, h3, h2, hfet]

/-- C2, witness: the amended theorem applied to a freshly constructed
entity and a stub reply. -/
theorem c2_moderation_pure_witness :
    lookupA (Entity.attrs ⟨[("comment_limit", Value.vNat 2048),
        ("comment_sort", Value.vStr "best"), ("id", Value.vStr "abc"),
        ("flair", Value.vFlair), ("mod", Value.vMod)], false⟩) "id" =
      some (Value.vStr "abc")
  ∧ nsfwCall ⟨[("comment_limit", Value.vNat 2048),
        ("comment_sort", Value.vStr "best"), ("id", Value.vStr "abc"),
        ("flair", Value.vFlair), ("mod", Value.vMod)], false⟩ ⟨[[]], []⟩ 0 =
      (⟨"api/marknsfw", [("id", .vStr ("t3_" ++ pyStr (Value.vStr "abc")))]⟩,
       ⟨[("comment_limit", Value.vNat 2048), ("comment_sort", Value.vStr "best"),
         ("id", Value.vStr "abc"), ("flair", Value.vFlair),
         ("mod", Value.vMod)], false⟩, false) :=
  ⟨by decide,
   (c2_moderation_pure_flair_choices_fetches
     ⟨[("comment_limit", Value.vNat 2048), ("comment_sort", Value.vStr "best"),
       ("id", Value.vStr "abc"), ("flair", Value.vFlair), ("mod", Value.vMod)], false⟩
     ⟨[[]], []⟩ 0 (Value.vStr "abc") true true "new" (by decide)).2.1⟩

/-- C3, counterexample: the fetch does not update the pre-fetch tree
object in place — it installs a brand-new comment forest (a different
identity tag) built from the reply, discarding the previously attached
tree, so a reference to the old tree root no longer refers to the
entity's current tree. -/
theorem c3_counterexample_tree_replaced :
    lookupA (Entity.attrs ⟨[("comments", Value.vForest 0 [1, 2])], false⟩) "comments" =
      some (Value.vForest 0 [1, 2])
  ∧ fetchF ⟨[("comments", Value.vForest 0 [1, 2])], false⟩
      ⟨[[("score", Value.vNat 3)]], [9]⟩ 4 =
      some ⟨[("comments", Value.vForest 4 [9]), ("score", Value.vNat 3)], true⟩
  ∧ lookupA [("comments", Value.vForest 4 [9]), ("score", Value.vNat 3)] "comments" =
      some (Value.vForest 4 [9])
  ∧ Value.vForest 4 [9] ≠ Value.vForest 0 [1, 2] := by
  decide

/-- C3 (amended): during fetch a freshly constructed comment forest
(carrying the fresh identity tag) is attached to the primary record
and installed on the entity by the merge, replacing any previously
attached tree object; the secondary children are then merged into that
new forest.  An external reference to a tree root held before the
fetch therefore does not refer to the entity's post-fetch tree. -/
theorem c3_fetch_installs_fresh_tree
    (e : Entity) (r : Reply) (tag : Nat) (rec0 : List (String × Value))
    (rest : List (List (String × Value)))
    (hc : r.children = rec0 :: rest) (hnd : (rec0.map Prod.fst).Nodup) :
    ∃ e2, fetchF e r tag = some e2 ∧ e2.fetched = true ∧
      lookupA e2.attrs "comments" =
        some (forestUpdate (Value.vForest tag []) r.commentChildren) := by
  rw [fetchF_cons e r tag rec0 rest hc]
  have hm : lookupA (dictUpdate e.attrs
      (upsert rec0 "comments" (Value.vForest tag []))) "comments" =
        some (Value.vForest tag []) :=
    lookupA_dictUpdate_some _ _ _ _ (lookupA_upsert_self _ _ _)
      (nodup_keys_upsert _ _ _ hnd)
  refine ⟨_, rfl, rfl, ?_⟩
  rw [hm]
  exact lookupA_upsert_self _ _ _

/-- C3, witness: the amended theorem applied to an empty entity and a
stub reply. -/
theorem c3_fresh_tree_witness :
    Reply.children ⟨[[("title", Value.vStr "t")]], [11]⟩ = [("title", Value.vStr "t")] :: []
  ∧ ∃ e2, fetchF ⟨[], false⟩ ⟨[[("title", Value.vStr "t")]], [11]⟩ 6 = some e2 ∧
      e2.fetched = true ∧
      lookupA e2.attrs "comments" =
        some (forestUpdate (Value.vForest 6 []) [11]) :=
  ⟨rfl,
   c3_fetch_installs_fresh_tree ⟨[], false⟩ ⟨[[("title", Value.vStr "t")]], [11]⟩ 6
     [("title", Value.vStr "t")] [] rfl (by decide)⟩

/-- C8, counterexample: the `comments` attribute, set before fetch and
absent from the reply's primary record, is nevertheless altered by the
fetch merge (the fetch always reinstalls a fresh comment forest), so
the merge does alter a previously-set field absent from the reply. -/
theorem c8_counterexample_comments_clobbered :
    lookupA [] "comments" = none
  ∧ lookupA (Entity.attrs ⟨[("id", Value.vStr "xyz"),
        ("comments", Value.vForest 7 [3])], false⟩) "comments" =
      some (Value.vForest 7 [3])
  ∧ fetchF ⟨[("id", Value.vStr "xyz"), ("comments", Value.vForest 7 [3])], false⟩
      ⟨[[]], [5]⟩ 8 =
      some ⟨[("id", Value.vStr "xyz"), ("comments", Value.vForest 8 [5])], true⟩
  ∧ lookupA [("id", Value.vStr "xyz"), ("comments", Value.vForest 8 [5])] "comments" =
      some (Value.vForest 8 [5])
  ∧ Value.vForest 8 [5] ≠ Value.vForest 7 [3] := by
  decide

/-- C8 (amended): for every attribute set before fetch whose name does
not occur in the reply's primary record and is not the comment-tree
field `comments` (which the fetch itself always rewrites, as it also
does the fetched flag), the value after the fetch merge equals the
value before — the merge adds or overwrites record fields but never
removes or alters other previously-set fields. -/
theorem c8_merge_preserves_unrelated_fields
    (e : Entity) (r : Reply) (tag : Nat) (rec0 : List (String × Value))
    (rest : List (List (String × Value))) (e2 : Entity) (name : String)
    (hc : r.children = rec0 :: rest) (hf : fetchF e r tag = some e2)
    (hn : lookupA rec0 name = none) (hne : name ≠ "comments") :
    lookupA e2.attrs name = lookupA e.attrs name := by
  rw [fetchF_cons e r tag rec0 rest hc] at hf
  have hno : lookupA (upsert rec0 "comments" (Value.vForest tag [])) name = none := by
    rw [lookupA_upsert_ne _ _ _ _ hne, hn]
  have hmerged : lookupA (dictUpdate e.attrs
      (upsert rec0 "comments" (Value.vForest tag []))) name = lookupA e.attrs name :=
    lookupA_dictUpdate_not_mem _ _ _ ((lookupA_eq_none _ _).mp hno)
  rcases hm : lookupA (dictUpdate e.attrs
      (upsert rec0 "comments" (Value.vForest tag []))) "comments" with _ | f
  · rw [hm] at hf
    injection hf with hf2
    rw [← hf2]
    exact hmerged
  · rw [hm] at hf
    injection hf with hf2
    rw [← hf2]
    rw [lookupA_upsert_ne _ _ _ _ hne]
    exact hmerged

/-- C8, witness: a concrete pre-fetch attribute (`custom`) absent from
the reply record survives the merge unchanged. -/
theorem c8_merge_preserves_witness :
    lookupA [("title", Value.vStr "x")] "custom" = none
  ∧ lookupA (Entity.attrs ⟨[("custom", Value.vStr "keep"), ("id", Value.vStr "q"),
        ("title", Value.vStr "x"), ("comments", Value.vForest 1 [])], true⟩) "custom" =
      lookupA (Entity.attrs ⟨[("custom", Value.vStr "keep"),
        ("id", Value.vStr "q")], false⟩) "custom" :=
  ⟨by decide,
   c8_merge_preserves_unrelated_fields
     ⟨[("custom", Value.vStr "keep"), ("id", Value.vStr "q")], false⟩
     ⟨[[("title", Value.vStr "x")]], []⟩ 1 [("title", Value.vStr "x")] []
     ⟨[("custom", Value.vStr "keep"), ("id", Value.vStr "q"),
       ("title", Value.vStr "x"), ("comments", Value.vForest 1 [])], true⟩
     "custom" rfl (by decide) (by decide) (by decide)⟩

/-- C4: the fetch request built by `Submission._fetch` carries a
`limit` and a `sort` parameter read from the entity's own attributes
at call time; construction sets the defaults `comment_limit = 2048`
and `comment_sort = 'best'`, and a caller who overwrote either
attribute before the first access gets the customized values in the
request. -/
theorem c4_fetch_params_read_at_call_time :
    (∀ i : String, ∃ e : Entity,
       Submission.init (some i) none none = .ok e ∧
       e.fetched = false ∧
       (fetchRequest e).params =
         [("limit", some (Value.vNat 2048)), ("sort", some (Value.vStr "best"))])
  ∧ (∀ (e : Entity) (v w : Value),
       (fetchRequest (setAttr (setAttr e "comment_limit" v) "comment_sort" w)).params =
         [("limit", some v), ("sort", some w)]) := by
  constructor
  · intro i
    exact ⟨_, rfl, rfl, rfl⟩
  · intro e v w
    have ho1 : objectify "comment_limit" v = v := by simp [objectify]
    have ho2 : objectify "comment_sort" w = w := by simp [objectify]
    simp only [fetchRequest, setAttr, ho1, ho2]
    rw [lookupA_upsert_ne _ "comment_sort" "comment_limit" _ (by decide),
      lookupA_upsert_self, lookupA_upsert_self]

/-- C4, witness: the theorem instantiated at a concrete identifier and
concrete customized values. -/
theorem c4_fetch_params_witness :
    (∃ e : Entity,
       Submission.init (some "2gmzqe") none none = .ok e ∧
       e.fetched = false ∧
       (fetchRequest e).params =
         [("limit", some (Value.vNat 2048)), ("sort", some (Value.vStr "best"))])
  ∧ (fetchRequest (setAttr (setAttr ⟨[], false⟩ "comment_limit" (Value.vNat 5))
       "comment_sort" (Value.vStr "new"))).params =
      [("limit", some (Value.vNat 5)), ("sort", some (Value.vStr "new"))] :=
  ⟨c4_fetch_params_read_at_call_time.1 "2gmzqe",
   c4_fetch_params_read_at_call_time.2 ⟨[], false⟩ (Value.vNat 5) (Value.vStr "new")⟩

/-- Unfolding lemma: construction from a URL alone first resolves the
URL and propagates the resolver's error. -/
theorem init_url_reduce (u : String) :
    Submission.init none (some u) none =
      match id_from_url u with
      | .ok s =>
          .ok (withCompanions (setAttr (setAttr (setAttr (⟨[], false⟩ : Entity)
            "comment_limit" (.vNat 2048)) "comment_sort" (.vStr "best"))
            "id" (.vStr s)))
      | .error err => .error err := rfl

/-- The resolver never raises the construction-arity error. -/
theorem id_from_url_ne_typeError (u : String) :
    id_from_url u ≠ .error .typeError := by
  unfold id_from_url
  by_cases h : (urlparse u).netloc = ""
  · simp [h]
  · rcases hc : candidate u with _ | tok
    · simp [h, hc]
    · by_cases ha : pyIsAlnum tok <;> simp [h, hc, ha]

/-- C5, counterexample: exactly one of the three inputs is supplied (a
URL), yet construction fails — the resolver rejects the URL with
`ClientException` — refuting "constructing with exactly one of them
succeeds". -/
theorem c5_counterexample_bad_url :
    [(none : Option String).isNone, (some "not a url").isNone,
     (none : Option (List (String × Value))).isNone].count true = 2
  ∧ Submission.init none (some "not a url") none =
      .error (.clientException "Invalid URL: not a url") := by
  decide

/-- C5 (amended): constructing fails with the arity `TypeError`
exactly when the number of supplied inputs among identifier, URL and
raw data differs from one; with exactly one supplied, construction
succeeds — except that when the single input is a URL, construction
succeeds exactly when the resolver accepts the URL, and otherwise
fails with the resolver's own error. -/
theorem c5_construction_contract
    (idO urlO : Option String) (dataO : Option (List (String × Value))) :
    (Submission.init idO urlO dataO = .error .typeError ↔
       [idO.isNone, urlO.isNone, dataO.isNone].count true ≠ 2)
  ∧ ([idO.isNone, urlO.isNone, dataO.isNone].count true = 2 → urlO = none →
       ∃ e, Submission.init idO urlO dataO = .ok e)
  ∧ (∀ u, urlO = some u →
       [idO.isNone, urlO.isNone, dataO.isNone].count true = 2 →
       ((∃ e, Submission.init idO urlO dataO = .ok e) ↔
          (∃ s, id_from_url u = .ok s))
       ∧ (∀ err, id_from_url u = .error err →
            Submission.init idO urlO dataO = .error err)) := by
  rcases urlO with _ | u0
  · rcases idO with _ | i <;> rcases dataO with _ | d
    · exact ⟨by decide, fun h => absurd h (by decide),
        fun u hu => Option.noConfusion hu⟩
    · exact ⟨iff_of_false (fun h => Except.noConfusion
          ((rfl : Submission.init none none (some d) =
              Submission.init none none (some d)) ▸ h))
          (by simp only [Option.isNone_some, Option.isNone_none]; decide),
        fun _ _ => ⟨_, rfl⟩, fun u hu => Option.noConfusion hu⟩
    · exact ⟨iff_of_false (fun h => Except.noConfusion
          ((rfl : Submission.init (some i) none none =
              Submission.init (some i) none none) ▸ h))
          (by simp only [Option.isNone_some, Option.isNone_none]; decide),
        fun _ _ => ⟨_, rfl⟩, fun u hu => Option.noConfusion hu⟩
    · exact ⟨iff_of_true rfl
          (by simp only [Option.isNone_some, Option.isNone_none]; decide),
        fun h => absurd h
          (by simp only [Option.isNone_some, Option.isNone_none]; decide),
        fun u hu => Option.noConfusion hu⟩
  · rcases idO with _ | i <;> rcases dataO with _ | d
    · refine ⟨⟨?_, ?_⟩, ?_, ?_⟩
      · intro h
        rw [init_url_reduce u0] at h
        rcases hr : id_from_url u0 with err | s
        · rw [hr] at h
          have h3 : (Except.error err : Except PErr Entity) =
              Except.error PErr.typeError := h
          injection h3 with h4
          rw [h4] at hr
          exact absurd hr (id_from_url_ne_typeError u0)
        · rw [hr] at h
          have h3 : (Except.ok (withCompanions (setAttr (setAttr (setAttr
              (⟨[], false⟩ : Entity) "comment_limit" (.vNat 2048))
              "comment_sort" (.vStr "best")) "id" (.vStr s))) :
                Except PErr Entity) = Except.error PErr.typeError := h
          exact Except.noConfusion h3
      · intro h2
        exact absurd
          (by simp only [Option.isNone_some, Option.isNone_none]; decide) h2
      · intro _ h
        exact Option.noConfusion h
      · intro u hu _
        injection hu with hu2
        subst hu2
        constructor
        · rw [init_url_reduce u0]
          rcases hr : id_from_url u0 with err | s <;> simp [hr]
        · intro err hr
          rw [init_url_reduce u0, hr]
    · exact ⟨iff_of_true rfl
          (by simp only [Option.isNone_some, Option.isNone_none]; decide),
        fun h => absurd h
          (by simp only [Option.isNone_some, Option.isNone_none]; decide),
        fun u hu h2 => absurd h2
          (by simp only [Option.isNone_some, Option.isNone_none]; decide)⟩
    · exact ⟨iff_of_true rfl
          (by simp only [Option.isNone_some, Option.isNone_none]; decide),
        fun h => absurd h
          (by simp only [Option.isNone_some, Option.isNone_none]; decide),
        fun u hu h2 => absurd h2
          (by simp only [Option.isNone_some, Option.isNone_none]; decide)⟩
    · exact ⟨iff_of_true rfl
          (by simp only [Option.isNone_some, Option.isNone_none]; decide),
        fun h => absurd h
          (by simp only [Option.isNone_some, Option.isNone_none]; decide),
        fun u hu h2 => absurd h2
          (by simp only [Option.isNone_some, Option.isNone_none]; decide)⟩

/-- C5, witness: the amended theorem instantiated at a single supplied
identifier. -/
theorem c5_construction_witness :
    [(some "abc" : Option String).isNone, (none : Option String).isNone,
     (none : Option (List (String × Value))).isNone].count true = 2
  ∧ ∃ e, Submission.init (some "abc") none none = .ok e :=
  ⟨by decide,
   (c5_construction_contract (some "abc") none none).2.1 (by decide) rfl⟩

/-- C6: for every URL the resolver accepts, the returned identifier is
the path segment immediately following the first occurrence of the
`comments` marker when the marker is present among the segments, and
the final path segment otherwise; in particular the three documented
example URLs all resolve to `2gmzqe`. -/
theorem c6_resolver_segment_selection :
    (∀ url tok, id_from_url url = Except.ok tok →
       ("comments" ∈ pathParts url →
          (pathParts url).get?
            ((pathParts url).findIdx (fun p => p == "comments") + 1) = some tok)
       ∧ ("comments" ∉ pathParts url → (pathParts url).getLast? = some tok))
  ∧ id_from_url "https://redd.it/2gmzqe" = Except.ok "2gmzqe"
  ∧ id_from_url "https://reddit.com/comments/2gmzqe/" = Except.ok "2gmzqe"
  ∧ id_from_url "https://www.reddit.com/r/redditdev/comments/2gmzqe/praw_https/" =
      Except.ok "2gmzqe" := by
  refine ⟨?_, by decide, by decide, by decide⟩
  intro url tok h
  simp only [id_from_url] at h
  by_cases hn : (urlparse url).netloc = ""
  · simp [hn] at h
  · rw [if_neg hn] at h
    rcases hc : candidate url with _ | s
    · rw [hc] at h
      exact Except.noConfusion h
    · rw [hc] at h
      have h1 : (if pyIsAlnum s = true then Except.ok s
          else Except.error (PErr.clientException ("Invalid URL: " ++ url))) =
            Except.ok tok := h
      by_cases ha : pyIsAlnum s
      · rw [if_pos ha] at h1
        injection h1 with h2
        subst h2
        simp only [candidate] at hc
        by_cases hm : "comments" ∈ pathParts url
        · rw [if_pos hm] at hc
          exact ⟨fun _ => hc, fun hnm => absurd hm hnm⟩
        · rw [if_neg hm] at hc
          exact ⟨fun hm2 => absurd hm2 hm, fun _ => hc⟩
      · rw [if_neg ha] at h1
        exact Except.noConfusion h1

/-- C6, witness: the segment-after-marker rule evaluated on the full
comment-page example URL. -/
theorem c6_resolver_witness :
    (pathParts "https://www.reddit.com/r/redditdev/comments/2gmzqe/praw_https/").get?
        ((pathParts "https://www.reddit.com/r/redditdev/comments/2gmzqe/praw_https/").findIdx
          (fun p => p == "comments") + 1) = some "2gmzqe" :=
  (c6_resolver_segment_selection.1 _ "2gmzqe" (by decide)).1 (by decide)

/-- C7: the resolver fails with the `ClientException` echoing the
offending URL exactly when the URL has no authority component, or when
a candidate identifier token is derived from the path and is not
composed solely of alphanumeric characters. -/
theorem c7_resolver_error_conditions (url : String) :
    id_from_url url = .error (.clientException ("Invalid URL: " ++ url)) ↔
      ((urlparse url).netloc = "" ∨
       ∃ tok, candidate url = some tok ∧ pyIsAlnum tok = false) := by
  simp only [id_from_url]
  by_cases hn : (urlparse url).netloc = ""
  · simp [hn]
  · rw [if_neg hn]
    rcases hc : candidate url with _ | s
    · simp [hn, hc]
    · by_cases ha : pyIsAlnum s <;> simp [hn, hc, ha]

/-- C7, witness: a URL with no authority component is rejected with
the `ClientException` echoing it. -/
theorem c7_resolver_witness :
    id_from_url "not a url" = .error (.clientException ("Invalid URL: " ++ "not a url")) :=
  (c7_resolver_error_conditions "not a url").mpr (Or.inl (by decide))

/-- C9: the sticky request payload with `bottom = false` carries the
top-position marker `num = 1` alongside the `id` and `state` fields;
with `bottom = true` (the default) the payload is exactly the `id` and
`state` fields, with no positional marker. -/
theorem c9_sticky_positional_marker
    (e : Entity) (r : Reply) (tag : Nat) (idv : Value) (state : Bool)
    (h : lookupA e.attrs "id" = some idv) :
    (stickyCall e r tag state false).1.data =
      [("id", .vStr ("t3_" ++ pyStr idv)), ("state", .vBool state), ("num", .vNat 1)]
  ∧ (stickyCall e r tag state true).1.data =
      [("id", .vStr ("t3_" ++ pyStr idv)), ("state", .vBool state)] := by
  constructor <;>
    simp [stickyCall, getattrF, h, fullnameStr, pyStrOpt, upsert]

/-- C9, witness: the sticky payloads evaluated on a concrete
entity. -/
theorem c9_sticky_witness :
    (stickyCall ⟨[("id", Value.vStr "2gmzqe")], false⟩ ⟨[[]], []⟩ 0 true false).1.data =
      [("id", .vStr ("t3_" ++ pyStr (Value.vStr "2gmzqe"))), ("state", .vBool true),
       ("num", .vNat 1)] :=
  (c9_sticky_positional_marker ⟨[("id", Value.vStr "2gmzqe")], false⟩ ⟨[[]], []⟩ 0
    (Value.vStr "2gmzqe") true (by decide)).1

/-- C10: on a URL with an authority component whose final path segment
is the `comments` marker itself, the resolver's lookup of the
following segment indexes one past the end of the segment list, so the
call fails with the out-of-range `IndexError` rather than the
`ClientException` used for invalid references. -/
theorem c10_comments_last_segment_index_error :
    (urlparse "https://reddit.com/comments").netloc = "reddit.com"
  ∧ (pathParts "https://reddit.com/comments").getLast? = some "comments"
  ∧ (pathParts "https://reddit.com/comments").findIdx (fun p => p == "comments") + 1 =
      (pathParts "https://reddit.com/comments").length
  ∧ id_from_url "https://reddit.com/comments" = .error .indexError
  ∧ (.error .indexError : Except PErr String) ≠
      .error (.clientException "Invalid URL: https://reddit.com/comments") := by
  decide

end Praw
